import Mathlib

/-!
Verification of the role-gated RAG service (rbac_config.py, rag_pipeline.py,
ingest_data.py, api/main.py) against its natural-language specification.
The Python code is shallowly embedded: document chunks become a structure,
the static role mapping becomes an association list, and the stateful parts
of the query pipeline (environment lookups, index loading, provider calls)
become explicit parameters and event traces.
-/

namespace DsRpc

/-! ## Data model

A LangChain Document carries text plus a metadata dict.  The only metadata
keys this repository reads or writes are "source" (a path string, written by
ingest_data.py) and "row" (an integer, written for CSV rows).  Both are
modelled as optional fields, since a retrieved chunk may lack either key. -/

/-- Metadata of a chunk: the optional "source" path and the optional "row"
number, the only two keys the repository uses. -/
structure Metadata where
  source : Option String
  row : Option Nat
deriving DecidableEq

/-- Embedding of langchain Document as used by this repository: text content
plus metadata. -/
structure Document where
  page_content : String
  metadata : Metadata
deriving DecidableEq

/-! ## rbac_config.py -/

/-- Embedding of os.path.join for the two-component joins used in
rbac_config.py (POSIX separator). -/
def pathJoin (a b : String) : String := a ++ "/" ++ b

/-- BASE_PATH constant from rbac_config.py line 3. -/
def BASE_PATH : String := "resources/data"

/-- ENGINEERING_FILES from rbac_config.py lines 5 to 7. -/
def ENGINEERING_FILES : List String :=
  [pathJoin BASE_PATH "engineering/engineering_master_doc.md"]

/-- FINANCE_FILES from rbac_config.py lines 9 to 12. -/
def FINANCE_FILES : List String :=
  [pathJoin BASE_PATH "finance/financial_summary.md",
   pathJoin BASE_PATH "finance/quarterly_financial_report.md"]

/-- GENERAL_FILES from rbac_config.py lines 14 to 16. -/
def GENERAL_FILES : List String :=
  [pathJoin BASE_PATH "general/employee_handbook.md"]

/-- HR_FILES from rbac_config.py lines 18 to 20. -/
def HR_FILES : List String :=
  [pathJoin BASE_PATH "hr/hr_data.csv"]

/-- MARKETING_FILES from rbac_config.py lines 22 to 28. -/
def MARKETING_FILES : List String :=
  [pathJoin BASE_PATH "marketing/market_report_q4_2024.md",
   pathJoin BASE_PATH "marketing/marketing_report_2024.md",
   pathJoin BASE_PATH "marketing/marketing_report_q1_2024.md",
   pathJoin BASE_PATH "marketing/marketing_report_q2_2024.md",
   pathJoin BASE_PATH "marketing/marketing_report_q3_2024.md"]

/-- ALL_FILES from rbac_config.py line 30. -/
def ALL_FILES : List String :=
  ENGINEERING_FILES ++ FINANCE_FILES ++ GENERAL_FILES ++ HR_FILES ++ MARKETING_FILES

/-- ROLE_PERMISSIONS from rbac_config.py lines 32 to 42, as an association
list in the Python dict insertion order. -/
def ROLE_PERMISSIONS : List (String × List String) :=
  [("finance_team",
      FINANCE_FILES ++
        [pathJoin BASE_PATH "marketing/marketing_report_2024.md",
         pathJoin BASE_PATH "general/employee_handbook.md"]),
   ("marketing_team", MARKETING_FILES),
   ("hr_team", HR_FILES ++ GENERAL_FILES),
   ("engineering_department", ENGINEERING_FILES),
   ("c_level_executives", ALL_FILES),
   ("employee_level", GENERAL_FILES)]

/-- Embedding of get_allowed_documents (rbac_config.py lines 44 to 54):
ROLE_PERMISSIONS.get(role, []), a total dictionary lookup defaulting to the
empty list. -/
def get_allowed_documents (role : String) : List String :=
  (ROLE_PERMISSIONS.lookup role).getD []

/-! ## rag_pipeline.py: the role filter -/

/-- Python membership test doc.metadata.get("source") in allowed_sources,
where the metadata value may be absent (None).  allowed_sources always holds
only str values (it comes from ROLE_PERMISSIONS or is empty), and in Python
None compares unequal to every str, so a missing source never passes. -/
def sourceInAllowed (sourceOpt : Option String) (allowed : List String) : Bool :=
  match sourceOpt with
  | some s => allowed.contains s
  | none => false

/-- Result of the retrieval-and-filter step, together with whether the
underlying similarity search (retriever.get_relevant_documents) was invoked
at all. -/
structure FilterOutcome where
  docs : List Document
  retrieverInvoked : Bool
deriving DecidableEq

/-- Embedding of the closure _get_filtered_docs (rag_pipeline.py lines 117
to 134).  The captured retriever is passed explicitly as a function from the
query text to the ranked list of retrieved chunks; its behaviour is
arbitrary, matching an arbitrary similarity ranking.  The Python code reads:
look up the allowed sources for the role; if the list is falsy (empty),
return [] at once; otherwise call the retriever and keep exactly the
retrieved docs whose metadata "source" is a member of the allowed list,
preserving order. -/
def get_filtered_docs_impl (retriever : String → List Document)
    (question role : String) : FilterOutcome :=
  let allowed_sources := get_allowed_documents role
  if allowed_sources.isEmpty then
    { docs := [], retrieverInvoked := false }
  else
    let retrieved_docs := retriever question
    let filtered_docs :=
      retrieved_docs.filter (fun doc => sourceInAllowed doc.metadata.source allowed_sources)
    { docs := filtered_docs, retrieverInvoked := true }

/-! ## rag_pipeline.py: context formatting -/

/-- Embedding of the Python str.join: empty list gives the empty string,
otherwise the pieces are concatenated with the separator between consecutive
pieces. -/
def pyJoin (sep : String) : List String → String
  | [] => ""
  | [a] => a
  | a :: b :: rest => a ++ sep ++ pyJoin sep (b :: rest)

/-- Per-chunk block built by the loop body of format_docs_for_context
(rag_pipeline.py lines 29 to 35): source is metadata.get("source",
"Unknown Source"), extended with a row suffix when the metadata carries a
"row" key, then prepended as a header line to the page content. -/
def format_one_doc (doc : Document) : String :=
  let source := doc.metadata.source.getD "Unknown Source"
  let source :=
    match doc.metadata.row with
    | some r => source ++ " (Row: " ++ toString r ++ ")"
    | none => source
  "Source: " ++ source ++ "\n" ++ doc.page_content

/-- Embedding of format_docs_for_context (rag_pipeline.py lines 20 to 36):
the sentinel string for an empty list, otherwise the per-chunk blocks joined
by a blank line. -/
def format_docs_for_context (docs : List Document) : String :=
  if docs.isEmpty then
    "No documents found or provided for context."
  else
    pyJoin "\n\n" (docs.map format_one_doc)

/-! ## rag_pipeline.py: query_rag

The effectful parts of query_rag are made explicit.  An Env record carries
what os.getenv and the index give the function: the two environment
variables, whether the vector store directory exists, and whether
FAISS.load_local succeeds or raises.  The function returns either a result
dict or a raised Python error, together with the trace of effectful steps it
performed, in order. -/

/-- Observable effectful steps of query_rag, used to state the
short-circuit claims. -/
inductive Event where
  | loadVectorStore
  | constructLLM
deriving DecidableEq

/-- Python exception escaping query_rag. -/
inductive PyError where
  | nameError (name : String)
deriving DecidableEq

/-- Result dict of query_rag.  The Python dicts returned by query_rag carry
the keys "answer" and "sources" and never an "error" key, so error is the
value of result.get("error"), which is None on every path. -/
structure RagResult where
  answer : String
  sources : List String
  error : Option String
deriving DecidableEq

/-- Process environment and index state visible to query_rag and
handle_chat_query. -/
structure Env where
  openai_api_key : Option String
  openai_api_base : Option String
  vector_store_exists : Bool
  load_result : Except String Unit

/-- Python truthiness test for the result of os.getenv: falsy when the
variable is unset (None) or set to the empty string. -/
def envFalsy (v : Option String) : Bool :=
  match v with
  | none => true
  | some s => s.isEmpty

/-- Fixed message of the missing-credential result (rag_pipeline.py
line 57). -/
def MISSING_KEY_ANSWER : String :=
  "Error: OPENAI_API_KEY environment variable not set. Cannot query the LLM."

/-- Fixed message of the missing-index result (rag_pipeline.py line 68). -/
def MISSING_STORE_ANSWER : String :=
  "Error: Vector store not found at vector_store/faiss_index. Please run the ingestion script first."

/-- Embedding of query_rag (rag_pipeline.py lines 38 to 173).  Control flow
of the source, in order: if OPENAI_API_KEY is falsy, return the
configuration-error dict at once (lines 55 to 59), before the vector store
is touched and before the ChatOpenAI client is constructed; if the vector
store path does not exist, return the missing-index dict (lines 66 to 70);
try to load the store (lines 72 to 84) and on an exception return the
load-error dict; then construct the retriever, the prompt and the
ChatOpenAI client (lines 86 to 113), and build the LCEL chain (lines 137 to
161).  The chain construction evaluates StringOutputParser() on line 157,
but the module binds only StrOutputParser (imported on line 10); the name
StringOutputParser is bound nowhere, so Python raises NameError there,
before the try block that starts on line 163, and the error escapes
query_rag.  No path returns a dict containing an "error" key, so the error
field is none on every returned result. -/
def query_rag (env : Env) (user_query user_role : String) :
    Except PyError RagResult × List Event :=
  if envFalsy env.openai_api_key then
    (.ok { answer := MISSING_KEY_ANSWER, sources := [], error := none }, [])
  else if env.vector_store_exists = false then
    (.ok { answer := MISSING_STORE_ANSWER, sources := [], error := none }, [])
  else
    match env.load_result with
    | .error e =>
        (.ok { answer := "Error loading vector store or embeddings: " ++ e,
               sources := [], error := none },
         [.loadVectorStore])
    | .ok _ =>
        (.error (.nameError "StringOutputParser"),
         [.loadVectorStore, .constructLLM])

/-! ## ingest_data.py -/

/-- Outcome of ingest_data (ingest_data.py lines 16 to 126) from the point
where the loaded documents are in hand: the file-loading loop itself is
filesystem I/O and is represented by the all_docs_content argument, and the
text splitter is passed as a function.  The source checks the loaded list on
lines 99 to 101: when it is empty the function prints a message and plainly
returns (value None, no exception); otherwise it splits the documents into
chunks, embeds them and saves the FAISS index.  The Except layer represents
a raised Python exception; no branch of the function body after loading
raises one. -/
def ingest_data (split : List Document → List Document)
    (all_docs_content : List Document) :
    Except String (Option (List Document)) :=
  if all_docs_content.isEmpty then
    .ok none
  else
    .ok (some (split all_docs_content))

/-- Test for a raised ingestion error: true exactly when ingest_data ended
in a raised exception rather than a plain return. -/
def raisedIngestionError : Except String (Option (List Document)) → Bool
  | .error _ => true
  | .ok _ => false

/-! ## api/main.py: handle_chat_query -/

/-- Outcome of the /chat/query handler: either a ChatQueryResponse body or
a raised HTTPException with a status code and detail string. -/
inductive ApiOutcome where
  | response (answer : String) (sources : List String) (error : Option String)
  | httpException (status : Nat) (detail : String)
deriving DecidableEq

/-- Embedding of handle_chat_query (api/main.py lines 88 to 138).  Control
flow of the source: if OPENAI_API_KEY is falsy, raise HTTPException 500
(lines 98 to 104); if the vector store path does not exist, raise
HTTPException 500 (lines 108 to 113); call query_rag, and if the returned
dict has a truthy "error" value, raise HTTPException 500 with that detail
(lines 121 to 123), otherwise answer with the dict fields and error None
(lines 125 to 129); any exception escaping query_rag other than an
HTTPException is caught and converted to the generic HTTPException 500
(lines 136 to 138). -/
def handle_chat_query (env : Env) (query role : String) : ApiOutcome :=
  if envFalsy env.openai_api_key then
    .httpException 500 "Server configuration error: OPENAI_API_KEY not set."
  else if env.vector_store_exists = false then
    .httpException 500
      "Server error: Vector store not found at vector_store/faiss_index. Please run ingestion."
  else
    match query_rag env query role with
    | (.error _, _) =>
        .httpException 500 "An unexpected internal error occurred. Please check server logs."
    | (.ok result, _) =>
        match result.error with
        | some e => .httpException 500 e
        | none => .response result.answer result.sources none

/-! ## Helper lemmas -/

/-- Every document kept by the role filter carries a source value that is a
member of the allowed list of the role.  Shared backbone of the
authorization claims. -/
theorem mem_filtered_docs_source (retriever : String → List Document)
    (question role : String) (doc : Document)
    (hmem : doc ∈ (get_filtered_docs_impl retriever question role).docs) :
    ∃ s, doc.metadata.source = some s ∧ s ∈ get_allowed_documents role := by
  unfold get_filtered_docs_impl at hmem
  by_cases hA : (get_allowed_documents role).isEmpty
  · simp [hA] at hmem
  · simp only [hA, Bool.false_eq_true, if_false, List.mem_filter] at hmem
    obtain ⟨_, hkeep⟩ := hmem
    cases hsrc : doc.metadata.source with
    | none => rw [hsrc] at hkeep; simp [sourceInAllowed] at hkeep
    | some s =>
        rw [hsrc] at hkeep
        simp [sourceInAllowed] at hkeep
        exact ⟨s, rfl, hkeep⟩

/-- Sample chunk drawn from the general handbook document, used by concrete
witnesses. -/
def sampleHandbookDoc : Document :=
  { page_content := "Remote work is allowed two days a week.",
    metadata := { source := some (pathJoin BASE_PATH "general/employee_handbook.md"),
                  row := none } }

/-- Sample chunk with no source metadata, used by concrete witnesses. -/
def noSourceDoc : Document :=
  { page_content := "orphan chunk with no provenance",
    metadata := { source := none, row := none } }

/-! ## Claims -/

/-- Claim C1: for every role string, every query and every behaviour of the
underlying similarity search, every chunk in the list returned by the
role-filtering retrieval step carries a source metadata value that is a
member of get_allowed_documents of that role. -/
theorem C1_authorization_invariant (retriever : String → List Document)
    (question role : String) (doc : Document)
    (hmem : doc ∈ (get_filtered_docs_impl retriever question role).docs) :
    ∃ s, doc.metadata.source = some s ∧ s ∈ get_allowed_documents role :=
  mem_filtered_docs_source retriever question role doc hmem

/-- Witness for C1 at a concrete retriever, query and role. -/
theorem C1_witness :
    ∃ s, sampleHandbookDoc.metadata.source = some s ∧
      s ∈ get_allowed_documents "employee_level" :=
  C1_authorization_invariant (fun _ => [sampleHandbookDoc])
    "What is the remote work policy?" "employee_level" sampleHandbookDoc (by decide)

/-- Claim C2: whenever the allowed-document list of a role is empty, the
retrieval step returns the empty list and never invokes the similarity
search, and conversely the similarity search is only ever invoked when the
allowed list is non-empty. -/
theorem C2_empty_allowlist_short_circuit :
    (∀ (retriever : String → List Document) (question role : String),
        get_allowed_documents role = [] →
        get_filtered_docs_impl retriever question role =
          { docs := [], retrieverInvoked := false })
    ∧ (∀ (retriever : String → List Document) (question role : String),
        (get_filtered_docs_impl retriever question role).retrieverInvoked = true →
        get_allowed_documents role ≠ []) := by
  constructor
  · intro retriever question role h
    unfold get_filtered_docs_impl
    simp [h]
  · intro retriever question role h hempty
    unfold get_filtered_docs_impl at h
    simp [hempty] at h

/-- Witness for C2 at a concrete unrecognized role whose allowed list is
empty. -/
theorem C2_witness :
    get_filtered_docs_impl (fun _ => [sampleHandbookDoc]) "Any question" "intern" =
      { docs := [], retrieverInvoked := false } :=
  C2_empty_allowlist_short_circuit.1 (fun _ => [sampleHandbookDoc])
    "Any question" "intern" (by decide)

/-- Claim C5: get_allowed_documents is a total function of the role string:
every role recorded in ROLE_PERMISSIONS is mapped to exactly its configured
document list, and every role string outside the configured key set is
mapped to the empty list.  Totality and determinism hold by construction:
the embedding is a plain function and the source is a dictionary get with a
default, which raises on no input. -/
theorem C5_total_lookup :
    (∀ role docs, (role, docs) ∈ ROLE_PERMISSIONS → get_allowed_documents role = docs)
    ∧ (∀ role, role ∉ ROLE_PERMISSIONS.map Prod.fst → get_allowed_documents role = []) := by
  constructor
  · intro role docs h
    simp only [ROLE_PERMISSIONS, List.mem_cons, List.not_mem_nil, or_false,
      Prod.mk.injEq] at h
    rcases h with ⟨rfl, rfl⟩ | ⟨rfl, rfl⟩ | ⟨rfl, rfl⟩ | ⟨rfl, rfl⟩ | ⟨rfl, rfl⟩ | ⟨rfl, rfl⟩ <;>
      rfl
  · intro role h
    simp only [ROLE_PERMISSIONS, List.map_cons, List.map_nil, List.mem_cons,
      List.not_mem_nil, or_false, not_or] at h
    obtain ⟨h1, h2, h3, h4, h5, h6⟩ := h
    simp [get_allowed_documents, ROLE_PERMISSIONS, List.lookup,
      beq_eq_false_iff_ne.mpr h1, beq_eq_false_iff_ne.mpr h2,
      beq_eq_false_iff_ne.mpr h3, beq_eq_false_iff_ne.mpr h4,
      beq_eq_false_iff_ne.mpr h5, beq_eq_false_iff_ne.mpr h6]

/-- Witness for C5 at one recognized and one unrecognized role. -/
theorem C5_witness :
    get_allowed_documents "hr_team" = HR_FILES ++ GENERAL_FILES ∧
      get_allowed_documents "contractor" = [] :=
  ⟨C5_total_lookup.1 "hr_team" (HR_FILES ++ GENERAL_FILES) (by decide),
   C5_total_lookup.2 "contractor" (by decide)⟩

/-- Claim C6: the employee-level document list is a strict subset of the
executive document list, and every document of every configured role is in
the executive list. -/
theorem C6_executive_superset :
    (∀ d ∈ get_allowed_documents "employee_level",
        d ∈ get_allowed_documents "c_level_executives")
    ∧ (∃ d ∈ get_allowed_documents "c_level_executives",
        d ∉ get_allowed_documents "employee_level")
    ∧ (∀ p ∈ ROLE_PERMISSIONS, ∀ d ∈ p.2,
        d ∈ get_allowed_documents "c_level_executives") := by
  decide

/-- Witness for C6: the handbook is accessible to the executives, obtained
from the superset property at the employee role. -/
theorem C6_witness :
    pathJoin BASE_PATH "general/employee_handbook.md" ∈
      get_allowed_documents "c_level_executives" :=
  C6_executive_superset.1 (pathJoin BASE_PATH "general/employee_handbook.md") (by decide)

/-- Claim C10: the role filter is fail-closed for missing provenance: a
retrieved chunk whose metadata has no source key is never admitted to the
filtered result, for any role, query and similarity ranking. -/
theorem C10_missing_source_excluded (retriever : String → List Document)
    (question role : String) (doc : Document)
    (hsrc : doc.metadata.source = none) :
    doc ∉ (get_filtered_docs_impl retriever question role).docs := by
  intro hmem
  obtain ⟨s, hs, _⟩ := mem_filtered_docs_source retriever question role doc hmem
  rw [hsrc] at hs
  exact Option.noConfusion hs

/-- Witness for C10: a sourceless chunk offered by the retriever is not in
the filtered result for a concrete role. -/
theorem C10_witness :
    noSourceDoc ∉ (get_filtered_docs_impl (fun _ => [noSourceDoc]) "q" "hr_team").docs :=
  C10_missing_source_excluded (fun _ => [noSourceDoc]) "q" "hr_team" noSourceDoc rfl

/-! ## Spec-side context description for claim C9 -/

/-- Block described by the claim for one chunk: an attribution header — the
source identifier of the chunk, with the row number appended when present in
its metadata — followed by the chunk text on the next line.  This definition
follows the words of the spec and is compared with the embedding of the
source code; it is meaningful for chunks that carry a source identifier
(filtered chunks always do). -/
def specBlock (d : Document) : String :=
  match d.metadata.source, d.metadata.row with
  | some s, some r => "Source: " ++ s ++ " (Row: " ++ toString r ++ ")" ++ "\n" ++ d.page_content
  | some s, none => "Source: " ++ s ++ "\n" ++ d.page_content
  | none, _ => ""

/-- Context described by the claim for a non-empty chunk list: the
concatenation of the per-chunk blocks, in order, separated by blank
lines. -/
def specContext : List Document → String
  | [] => ""
  | [d] => specBlock d
  | d :: rest => specBlock d ++ "\n\n" ++ specContext rest

/-- Per-chunk agreement: the loop body of the code equals the block the
spec describes, whenever the chunk carries a source identifier. -/
theorem format_one_eq_specBlock (d : Document) (h : d.metadata.source.isSome) :
    format_one_doc d = specBlock d := by
  obtain ⟨s, hs⟩ := Option.isSome_iff_exists.mp h
  cases hr : d.metadata.row <;>
    simp [format_one_doc, specBlock, hs, hr, String.append_assoc]

/-- Join agreement: joining the per-chunk blocks of the code with a blank
line equals the recursive concatenation the spec describes, for non-empty
sourced chunk lists. -/
theorem pyJoin_map_eq_specContext : ∀ (docs : List Document),
    (∀ d ∈ docs, d.metadata.source.isSome) → docs ≠ [] →
    pyJoin "\n\n" (docs.map format_one_doc) = specContext docs := by
  intro docs
  induction docs with
  | nil => intro _ h; exact absurd rfl h
  | cons d rest ih =>
    intro hall _
    cases rest with
    | nil =>
        show format_one_doc d = specBlock d
        exact format_one_eq_specBlock d (hall d (by simp))
    | cons e rest2 =>
        have hd := format_one_eq_specBlock d (hall d (by simp))
        have ihr := ih (fun x hx => hall x (List.mem_cons_of_mem _ hx)) (by simp)
        show format_one_doc d ++ "\n\n" ++
            pyJoin "\n\n" ((e :: rest2).map format_one_doc) =
          specBlock d ++ "\n\n" ++ specContext (e :: rest2)
        rw [hd, ihr]

/-- Claim C9: for the empty chunk list the context is the fixed sentinel
sentence, and for every non-empty list of (sourced) filtered chunks the
context is the concatenation, in order and separated by blank lines, of one
block per chunk, each block being the attribution header followed by the
chunk text. -/
theorem C9_context_format :
    format_docs_for_context ([] : List Document) =
        "No documents found or provided for context."
    ∧ ∀ docs : List Document, docs ≠ [] →
        (∀ d ∈ docs, d.metadata.source.isSome) →
        format_docs_for_context docs = specContext docs := by
  constructor
  · rfl
  · intro docs hne hall
    unfold format_docs_for_context
    rw [if_neg (by simpa using hne)]
    exact pyJoin_map_eq_specContext docs hall hne

/-- Sample CSV row chunk with row metadata, used by concrete witnesses. -/
def sampleHrDoc : Document :=
  { page_content := "employee_id: 1, department: HR",
    metadata := { source := some (pathJoin BASE_PATH "hr/hr_data.csv"), row := some 1 } }

/-- Witness for C9 at a concrete two-chunk list with and without row
metadata. -/
theorem C9_witness :
    format_docs_for_context [sampleHrDoc, sampleHandbookDoc] =
      specContext [sampleHrDoc, sampleHandbookDoc] :=
  C9_context_format.2 [sampleHrDoc, sampleHandbookDoc] (by simp) (by decide)

/-! ## Claims about query_rag and the API layer -/

/-- Environment with no OPENAI_API_KEY set but a loadable vector store. -/
def envNoKey : Env :=
  { openai_api_key := none, openai_api_base := none,
    vector_store_exists := true, load_result := .ok () }

/-- Environment with a credential and a loadable vector store, on which
query_rag reaches the chain construction. -/
def envReady : Env :=
  { openai_api_key := some "sk-test-key",
    openai_api_base := some "http://localhost:8080/v1",
    vector_store_exists := true, load_result := .ok () }

/-- Claim C7: when the OPENAI_API_KEY credential is absent (or empty),
query_rag returns the fixed configuration-error result immediately, with an
empty event trace: the vector store is not touched, the ChatOpenAI client
is not constructed, and no call reaches the generative provider. -/
theorem C7_missing_credential_short_circuit (env : Env) (q r : String)
    (h : envFalsy env.openai_api_key = true) :
    query_rag env q r =
      (.ok { answer := MISSING_KEY_ANSWER, sources := [], error := none }, []) := by
  unfold query_rag
  rw [if_pos h]

/-- Witness for C7 at a concrete environment with the credential unset. -/
theorem C7_witness :
    query_rag envNoKey "What are the profits?" "finance_team" =
      (.ok { answer := MISSING_KEY_ANSWER, sources := [], error := none }, []) :=
  C7_missing_credential_short_circuit envNoKey "What are the profits?" "finance_team" rfl

/-- Counterexample to claim C4 as stated: on the missing-credential failure
path, the structured result returned by query_rag has error equal to none —
the failure is communicated through the answer text, not through the error
field — and the API handler surfaces the same failure by raising an
HTTPException rather than by returning a structured result. -/
theorem C4_counterexample :
    (query_rag envNoKey "Any question" "employee_level").1 =
      .ok { answer := MISSING_KEY_ANSWER, sources := [], error := none }
    ∧ handle_chat_query envNoKey "Any question" "employee_level" =
      .httpException 500 "Server configuration error: OPENAI_API_KEY not set." :=
  ⟨rfl, rfl⟩

/-- Claim C4 as amended: on the failure paths that query_rag handles
(missing credential, missing vector store, load failure), it returns a
structured result whose answer is a non-empty explanatory message and whose
sources list is empty, and whose error field is none — so the failure is
communicated through the answer text, never through the error field. -/
theorem C4_amended_failure_results (env : Env) (q r : String)
    (h : envFalsy env.openai_api_key = true ∨ env.vector_store_exists = false ∨
        ∃ e, env.load_result = .error e) :
    ∃ res : RagResult,
      (query_rag env q r).1 = .ok res ∧ res.error = none ∧
      res.sources = [] ∧ res.answer ≠ "" := by
  by_cases hk : envFalsy env.openai_api_key = true
  · refine ⟨{ answer := MISSING_KEY_ANSWER, sources := [], error := none },
      ?_, rfl, rfl, by decide⟩
    simp [query_rag, hk]
  · by_cases hv : env.vector_store_exists = false
    · refine ⟨{ answer := MISSING_STORE_ANSWER, sources := [], error := none },
        ?_, rfl, rfl, by decide⟩
      simp [query_rag, hk, hv]
    · rcases h with h | h | ⟨e, he⟩
      · exact absurd h hk
      · exact absurd h hv
      · refine ⟨⟨"Error loading vector store or embeddings: " ++ e, [], none⟩,
          ?_, rfl, rfl, ?_⟩
        · simp [query_rag, hk, hv, he]
        · intro hcontra
          have h2 := congrArg String.length hcontra
          simp [String.length_append] at h2
          exact absurd h2.1 (by decide)

/-- Witness for the amended C4 at a concrete environment with the
credential unset. -/
theorem C4_witness :
    ∃ res : RagResult,
      (query_rag envNoKey "Any question" "employee_level").1 = .ok res ∧
      res.error = none ∧ res.sources = [] ∧ res.answer ≠ "" :=
  C4_amended_failure_results envNoKey "Any question" "employee_level" (Or.inl rfl)

/-- Claim C3, evaluation of the code at the failing input: with a credential
configured and a loadable vector store, query_rag raises NameError for the
unbound name StringOutputParser while building the chain, so it never
produces a query result carrying a sources field.  The sources computation
the claim describes (rag_pipeline.py line 149) is unreachable. -/
theorem C3_chain_construction_raises :
    query_rag envReady "What is the leave policy?" "employee_level" =
      (.error (.nameError "StringOutputParser"), [.loadVectorStore, .constructLLM]) := rfl

/-! ## Claim about ingest_data -/

/-- Counterexample to claim C8 as stated: on an empty loaded-document set,
ingest_data performs a plain return (value none) and raises no error at
all, rather than failing with an IngestionError. -/
theorem C8_counterexample :
    ingest_data id [] = .ok none ∧
      raisedIngestionError (ingest_data id []) = false :=
  ⟨rfl, rfl⟩

/-- Claim C8 as amended: when the loaded document set is empty, ingest_data
returns silently (value none, after printing a message) without raising any
error; only for a non-empty set does it split the documents and save the
index; no input makes it raise. -/
theorem C8_amended_empty_input_silent (split : List Document → List Document)
    (docs : List Document) :
    (docs.isEmpty = true → ingest_data split docs = .ok none)
    ∧ (docs.isEmpty = false → ingest_data split docs = .ok (some (split docs)))
    ∧ ∀ e, ingest_data split docs ≠ .error e := by
  refine ⟨fun h => by simp [ingest_data, h], fun h => by simp [ingest_data, h],
    fun e => ?_⟩
  unfold ingest_data
  cases docs.isEmpty <;> simp

/-- Witness for the amended C8 at an empty and at a one-document input. -/
theorem C8_witness :
    ingest_data id ([] : List Document) = .ok none ∧
      ingest_data id [sampleHandbookDoc] = .ok (some [sampleHandbookDoc]) :=
  ⟨(C8_amended_empty_input_silent id []).1 rfl,
   (C8_amended_empty_input_silent id [sampleHandbookDoc]).2.1 rfl⟩

end DsRpc
